import Mathlib

/-!
Verification of the recipe-organizer CRUD API (Express + Mongoose).

The development shallowly embeds the request-handling logic of the
repository:

* `src/middleware/validation.js` — the express-validator chains
  (`validateRecipe`), modelled field by field as boolean checks;
* `src/unnamed/part_000` (the recipe controller) —
  `createRecipe`, `updateRecipe`, `getAllRecipes` (filter construction
  and pagination), `searchRecipes` (query construction, parameter echo,
  pagination) and `getRecipeStats` (the three aggregation pipelines);
* `src/models/recipe.js` — field defaults of the Mongoose schema.

Machine-level conventions of the embedding: JavaScript strings are
`String`, arrays are `List`, a request field that may be absent is an
`Option`, `Date.now()` is an explicit `now : Nat` parameter, and the
MongoDB collection is a `List Recipe`.  JavaScript numeric parsing
(`parseInt`, `Number` coercion) is modelled for decimal numerals, the
only shape the handlers meet; the `$text` relevance operator is kept
abstract as a predicate parameter, since its stemming behaviour is
opaque to the application code.
-/

/-- A stored recipe document (`src/models/recipe.js`).  `cookingTime` and
`servings` are optional schema fields; `difficulty` defaults to
`"medium"`; `createdAt`/`updatedAt` are millisecond timestamps. -/
structure Recipe where
  title : String
  ingredients : List String
  instructions : String
  cookingTime : Option Int
  servings : Option Int
  difficulty : String
  tags : List String
  createdAt : Nat
  updatedAt : Nat
  deriving Repr, DecidableEq

/-- A create/update request body: every field may be absent. -/
structure RecipeBody where
  title : Option String := none
  ingredients : Option (List String) := none
  instructions : Option String := none
  cookingTime : Option Int := none
  servings : Option Int := none
  difficulty : Option String := none
  tags : Option (List String) := none
  deriving Repr, DecidableEq

/-! ## JavaScript string primitives

Character-list implementations of the string methods the handlers use,
so that every definition below evaluates by kernel reduction. -/

/-- `String.prototype.trim`: strip whitespace from both ends. -/
def jsTrim (s : String) : String :=
  ⟨((s.data.dropWhile Char.isWhitespace).reverse.dropWhile
      Char.isWhitespace).reverse⟩

/-- `String.prototype.toLowerCase` on the ASCII range. -/
def jsLower (s : String) : String :=
  ⟨s.data.map Char.toLower⟩

/-- Helper for `jsSplit`: accumulate the current field (reversed). -/
def jsSplitAux (sep : Char) : List Char → List Char → List String
  | [], acc => [⟨acc.reverse⟩]
  | c :: cs, acc =>
      if c = sep then ⟨acc.reverse⟩ :: jsSplitAux sep cs []
      else jsSplitAux sep cs (c :: acc)

/-- `String.prototype.split` with a one-character separator:
`"a,,b".split(',') = ["a","","b"]`, `"".split(',') = [""]`. -/
def jsSplit (s : String) (sep : Char) : List String :=
  jsSplitAux sep s.data []

/-! ## Validation (`src/middleware/validation.js`) -/

/-- `body('title').trim().notEmpty().isLength({min:3,max:100})`
(validation.js lines 4–9).  A missing field fails `notEmpty`. -/
def validateTitle (t : Option String) : Bool :=
  match t with
  | none => false
  | some s =>
      let s := jsTrim s
      !(s == "") && (3 ≤ s.length && s.length ≤ 100)

/-- `body('ingredients').isArray({min:1}).custom(...)` (validation.js
lines 11–19): at least one entry, and every entry non-empty after trim. -/
def validateIngredients (i : Option (List String)) : Bool :=
  match i with
  | none => false
  | some l => 1 ≤ l.length && l.all (fun s => 0 < (jsTrim s).length)

/-- `body('instructions').trim().notEmpty().isLength({min:10,max:2000})`
(validation.js lines 21–26). -/
def validateInstructions (t : Option String) : Bool :=
  match t with
  | none => false
  | some s =>
      let s := jsTrim s
      !(s == "") && (10 ≤ s.length && s.length ≤ 2000)

/-- `body('cookingTime').optional().isInt({min:1})` (validation.js
lines 28–31); also `servings`, lines 33–36. -/
def validatePosInt (n : Option Int) : Bool :=
  match n with
  | none => true
  | some v => 1 ≤ v

/-- The difficulty enumeration of the schema and the validator. -/
def difficultyEnum : List String := ["easy", "medium", "hard"]

/-- `body('difficulty').optional().isIn(['easy','medium','hard'])`
(validation.js lines 38–41). -/
def validateDifficulty (d : Option String) : Bool :=
  match d with
  | none => true
  | some s => difficultyEnum.contains s

/-- The whole `validateRecipe` chain: conjunction of the per-field
checks.  (`body('tags').optional().isArray()` is vacuous here because
the embedding types `tags` as a list.) -/
def validateRecipeBody (b : RecipeBody) : Bool :=
  validateTitle b.title && validateIngredients b.ingredients &&
  validateInstructions b.instructions && validatePosInt b.cookingTime &&
  validatePosInt b.servings && validateDifficulty b.difficulty

/-! ## Normalization (controller lines 115–127 and 189–200) -/

/-- The express-validator `.trim()` sanitizers rewrite `title` and
`instructions` in the body before the controller runs. -/
def sanitizeBody (b : RecipeBody) : RecipeBody :=
  { b with title := b.title.map jsTrim,
           instructions := b.instructions.map jsTrim }

/-- `ingredients.filter(i => i && i.trim().length > 0).map(i => i.trim())`
(controller lines 117–119 and 191–193). -/
def normIngredients (l : List String) : List String :=
  (l.filter (fun s => !(s == "") && 0 < (jsTrim s).length)).map jsTrim

/-- `tags.filter(t => t && t.trim().length > 0).map(t => t.trim().toLowerCase())`
(controller lines 124–126 and 197–199). -/
def normTags (l : List String) : List String :=
  (l.filter (fun s => !(s == "") && 0 < (jsTrim s).length)).map
    (fun s => jsLower (jsTrim s))

/-- The controller's array clean-up, applied only to fields present in
the body. -/
def normalizeBody (b : RecipeBody) : RecipeBody :=
  { b with ingredients := b.ingredients.map normIngredients,
           tags := b.tags.map normTags }

/-! ## Create and update (controller lines 99–168 and 173–254) -/

/-- `createRecipe`: reject on validation errors, clean up the arrays,
then `Recipe.create(req.body)` with the schema defaults of
`src/models/recipe.js` (difficulty `"medium"`, tags `[]`, both
timestamps `Date.now()`).  `none` is the 400 validation response. -/
def createRecipe (b : RecipeBody) (now : Nat) : Option Recipe :=
  if validateRecipeBody b then
    let b := normalizeBody (sanitizeBody b)
    match b.title, b.ingredients, b.instructions with
    | some t, some ing, some ins =>
        some { title := t, ingredients := ing, instructions := ins,
               cookingTime := b.cookingTime, servings := b.servings,
               difficulty := b.difficulty.getD "medium",
               tags := b.tags.getD [], createdAt := now, updatedAt := now }
    | _, _, _ => none
  else none

/-- `updateRecipe` on a found document `r`: reject on validation errors,
clean up the arrays, then
`findByIdAndUpdate(id, {...req.body, updatedAt: Date.now()})`, i.e. a
`$set` of exactly the fields present in the body plus `updatedAt`.
`none` is the 400 validation response. -/
def updateRecipe (r : Recipe) (b : RecipeBody) (now : Nat) : Option Recipe :=
  if validateRecipeBody b then
    let b := normalizeBody (sanitizeBody b)
    some { title := b.title.getD r.title,
           ingredients := b.ingredients.getD r.ingredients,
           instructions := b.instructions.getD r.instructions,
           cookingTime := b.cookingTime.or r.cookingTime,
           servings := b.servings.or r.servings,
           difficulty := b.difficulty.getD r.difficulty,
           tags := b.tags.getD r.tags,
           createdAt := r.createdAt, updatedAt := now }
  else none

/-! ## JavaScript numeric parsing

`parseInt` (radix 10) and the `Number` coercion behind `isNaN` and
arithmetic, modelled for decimal numerals. -/

/-- The numeric value of a run of decimal digits. -/
def digitsVal (cs : List Char) : Nat :=
  cs.foldl (fun a c => a * 10 + (c.toNat - 48)) 0

/-- `parseInt(s)` (radix 10): skip whitespace, optional sign, then the
longest decimal-digit prefix; `none` is `NaN`. -/
def jsParseInt (s : String) : Option Int :=
  let withSign : Int × List Char :=
    match (jsTrim s).data with
    | '-' :: cs => (-1, cs)
    | '+' :: cs => (1, cs)
    | cs => (1, cs)
  let ds := withSign.2.takeWhile Char.isDigit
  if ds.isEmpty then none else some (withSign.1 * (digitsVal ds : Nat))

/-- An unsigned decimal numeral `digits [. digits]` as a rational,
`none` when malformed. -/
def decChars (cs : List Char) : Option ℚ :=
  let intPart := cs.takeWhile Char.isDigit
  let rest := cs.drop intPart.length
  match rest with
  | [] => if intPart.isEmpty then none else some (digitsVal intPart : Nat)
  | '.' :: frac =>
      if frac.all Char.isDigit && !(intPart.isEmpty && frac.isEmpty) then
        some ((digitsVal intPart : Nat) +
          (digitsVal frac : Nat) / (10 ^ frac.length : ℚ))
      else none
  | _ => none

/-- `Number(s)` on a decimal numeral: whitespace-only is `0`, otherwise
an optionally signed decimal; `none` is `NaN`. -/
def jsToNum (s : String) : Option ℚ :=
  match (jsTrim s).data with
  | [] => some 0
  | '-' :: cs => (decChars cs).map (fun q => -q)
  | '+' :: cs => decChars cs
  | cs => decChars cs

/-- `x || null` / `if (x)` on an optional string: the empty string is
falsy, so it collapses to `none`. -/
def jsOrNull (s : Option String) : Option String :=
  match s with
  | some str => if str = "" then none else some str
  | none => none

/-! ## List endpoint (`getAllRecipes`, controller lines 7–57) -/

/-- Query parameters of `GET /api/recipes`. -/
structure ListParams where
  page : Option String := none
  limit : Option String := none
  difficulty : Option String := none
  tags : Option String := none
  deriving Repr, DecidableEq

/-- `const page = parseInt(req.query.page) || 1` (line 9): `NaN` and `0`
fall back to the default, every other parsed value is kept. -/
def listPageOf (q : Option String) : Int :=
  match q with
  | none => 1
  | some s =>
      match jsParseInt s with
      | none => 1
      | some n => if n = 0 then 1 else n

/-- `const limit = parseInt(req.query.limit) || 10` (line 10). -/
def listLimitOf (q : Option String) : Int :=
  match q with
  | none => 10
  | some s =>
      match jsParseInt s with
      | none => 10
      | some n => if n = 0 then 10 else n

/-- `skip = (page - 1) * limit` and the `.limit(limit)` take
(lines 11 and 29–30). -/
def listWindow (pageQ limitQ : Option String) : Int × Int :=
  ((listPageOf pageQ - 1) * listLimitOf limitQ, listLimitOf limitQ)

/-- The filter object built by `getAllRecipes` (lines 14–25):
difficulty is copied verbatim when truthy, tags are split on commas
with no further normalization. -/
structure ListFilter where
  difficulty : Option String
  tags : Option (List String)
  deriving Repr, DecidableEq

/-- Lines 17–25 of the controller. -/
def listFilterOf (p : ListParams) : ListFilter :=
  { difficulty := jsOrNull p.difficulty,
    tags := (jsOrNull p.tags).map (fun s => jsSplit s ',') }

/-- Whether a document matches the list filter: equality on
`difficulty`, `$in` (intersect-any) on `tags`. -/
def listMatches (f : ListFilter) (r : Recipe) : Bool :=
  (match f.difficulty with
   | some d => r.difficulty == d
   | none => true) &&
  (match f.tags with
   | some ts => r.tags.any (fun t => ts.contains t)
   | none => true)

/-- `Math.ceil(total / limit)` over real division, as the integer
ceiling `-⌊-total/lim⌋` (the handlers never pass `lim = 0`). -/
def jsCeilDiv (total : Nat) (lim : Int) : Int :=
  -(Int.fdiv (-(total : Int)) lim)

/-- The pagination block of the list response (lines 33–46). -/
structure Pagination where
  currentPage : Int
  totalPages : Int
  limit : Int
  total : Nat
  hasNext : Bool
  hasPrev : Bool
  deriving Repr, DecidableEq

/-- Lines 33–46 of the controller: `totalPages = Math.ceil(total/limit)`,
`hasNext: page < totalPages`, `hasPrev: page > 1`. -/
def listPaginationOf (pageQ limitQ : Option String) (total : Nat) : Pagination :=
  let page := listPageOf pageQ
  let lim := listLimitOf limitQ
  let tp := jsCeilDiv total lim
  { currentPage := page, totalPages := tp, limit := lim, total := total,
    hasNext := decide (page < tp), hasPrev := decide (1 < page) }

/-! ## Search endpoint (`searchRecipes`, controller lines 299–386) -/

/-- Query parameters of `GET /api/recipes/search`.  `page` and `limit`
arrive as raw strings; their destructuring defaults 1 and 10 apply only
when the parameter is absent. -/
structure SearchParams where
  q : Option String := none
  ingredient : Option String := none
  difficulty : Option String := none
  tags : Option String := none
  cookingTimeMax : Option String := none
  servingsMin : Option String := none
  page : Option String := none
  limit : Option String := none
  deriving Repr, DecidableEq

/-- The MongoDB query object built by `searchRecipes` (lines 313–346).
A numeric bound of `some none` is a `{$lte: NaN}` / `{$gte: NaN}`
clause, produced when the guard `!isNaN(x)` passes but `parseInt(x)`
still yields `NaN`; it matches no document. -/
structure SearchFilter where
  text : Option String
  ingredient : Option String
  difficulty : Option String
  tags : Option (List String)
  cookingTimeMax : Option (Option Int)
  servingsMin : Option (Option Int)
  deriving Repr, DecidableEq

/-- Lines 317–346 of the controller: `q` and `ingredient` are used when
truthy; `difficulty` only when it is one of the three enum values;
`tags` is split on commas, each entry trimmed and lower-cased;
`cookingTimeMax`/`servingsMin` only when truthy and `!isNaN`. -/
def searchFilterOf (p : SearchParams) : SearchFilter :=
  { text := jsOrNull p.q,
    ingredient := jsOrNull p.ingredient,
    difficulty :=
      match jsOrNull p.difficulty with
      | some d => if difficultyEnum.contains d then some d else none
      | none => none,
    tags := (jsOrNull p.tags).map
      (fun s => (jsSplit s ',').map (fun t => jsLower (jsTrim t))),
    cookingTimeMax :=
      match jsOrNull p.cookingTimeMax with
      | some s => if (jsToNum s).isSome then some (jsParseInt s) else none
      | none => none,
    servingsMin :=
      match jsOrNull p.servingsMin with
      | some s => if (jsToNum s).isSome then some (jsParseInt s) else none
      | none => none }

/-- Case-insensitive substring test: `{$regex: pat, $options: 'i'}` for
a pattern without regex metacharacters. -/
def containsCI (pat s : String) : Bool :=
  decide ((jsLower pat).data <:+: (jsLower s).data)

/-- Whether a document matches the search query.  The `$text` clause is
an abstract predicate `tm`; `$regex` on the `ingredients` array matches
when some element matches; `$lte`/`$gte` never match a document whose
field is unset, and a `NaN` bound matches nothing. -/
def searchMatches (tm : String → Recipe → Bool) (f : SearchFilter)
    (r : Recipe) : Bool :=
  (match f.text with
   | some s => tm s r
   | none => true) &&
  (match f.ingredient with
   | some pat => r.ingredients.any (fun i => containsCI pat i)
   | none => true) &&
  (match f.difficulty with
   | some d => r.difficulty == d
   | none => true) &&
  (match f.tags with
   | some ts => r.tags.any (fun t => ts.contains t)
   | none => true) &&
  (match f.cookingTimeMax with
   | some (some m) => match r.cookingTime with
     | some c => c ≤ m
     | none => false
   | some none => false
   | none => true) &&
  (match f.servingsMin with
   | some (some m) => match r.servings with
     | some v => m ≤ v
     | none => false
   | some none => false
   | none => true)

/-- The `searchQuery` block of the search response (lines 360–367):
each raw parameter, with `|| null` collapsing empty strings. -/
structure SearchEcho where
  textSearch : Option String
  ingredient : Option String
  difficulty : Option String
  tags : Option String
  cookingTimeMax : Option String
  servingsMin : Option String
  deriving Repr, DecidableEq

/-- Lines 360–367 of the controller. -/
def searchEchoOf (p : SearchParams) : SearchEcho :=
  { textSearch := jsOrNull p.q,
    ingredient := jsOrNull p.ingredient,
    difficulty := jsOrNull p.difficulty,
    tags := jsOrNull p.tags,
    cookingTimeMax := jsOrNull p.cookingTimeMax,
    servingsMin := jsOrNull p.servingsMin }

/-- The effective page number entering `skip = (page - 1) * limit`
(line 312): the destructuring default 1 applies only when the parameter
is absent; otherwise the raw string is coerced by arithmetic, so a
non-numeric value is `NaN` (`none`). -/
def searchPageNum (q : Option String) : Option ℚ :=
  match q with
  | none => some 1
  | some s => jsToNum s

/-- Same for `limit` with default 10. -/
def searchLimitNum (q : Option String) : Option ℚ :=
  match q with
  | none => some 10
  | some s => jsToNum s

/-- `skip = (page - 1) * limit` of the search handler; `NaN` propagates. -/
def searchSkip (pageQ limitQ : Option String) : Option ℚ :=
  match searchPageNum pageQ, searchLimitNum limitQ with
  | some p, some l => some ((p - 1) * l)
  | _, _ => none

/-! ## Statistics (`getRecipeStats`, controller lines 391–470) -/

/-- `$avg` over the values of a field: missing values are ignored, and
the average of no values is `null`. -/
def mongoAvg (xs : List Int) : Option ℚ :=
  if xs.isEmpty then none else some ((xs.map (fun x => (x : ℚ))).sum / xs.length)

/-- `$round: [x, 1]`: round to one decimal place (`$round` of `null` is
`null`; no property below distinguishes its tie-breaking). -/
def round1 (q : ℚ) : ℚ := round (q * 10) / 10

/-- The overview document of the first aggregation (lines 393–414). -/
structure Overview where
  totalRecipes : Nat
  avgCookingTime : Option ℚ
  avgServings : Option ℚ
  deriving DecidableEq

/-- The first pipeline: one `$group: {_id: null}` document when the
collection is non-empty, no document at all when it is empty. -/
def overviewStage (rs : List Recipe) : Option Overview :=
  if rs.isEmpty then none
  else some
    { totalRecipes := rs.length,
      avgCookingTime := (mongoAvg (rs.filterMap Recipe.cookingTime)).map round1,
      avgServings := (mongoAvg (rs.filterMap Recipe.servings)).map round1 }

/-- `stats[0] || {totalRecipes: 0, avgCookingTime: 0, avgServings: 0}`
(lines 445–449). -/
def statsOverview (rs : List Recipe) : Overview :=
  (overviewStage rs).getD
    { totalRecipes := 0, avgCookingTime := some 0, avgServings := some 0 }

/-- The second pipeline (lines 417–427) reduced to an object
(lines 450–453): count per difficulty value present, keys ascending. -/
def difficultyBreakdown (rs : List Recipe) : List (String × Nat) :=
  (((rs.map Recipe.difficulty).dedup).insertionSort (fun a b => a ≤ b)).map
    (fun d => (d, (rs.map Recipe.difficulty).count d))

/-- `$unwind: '$tags'`: the stream of every tag instance of every
document. -/
def allTags (rs : List Recipe) : List String :=
  (rs.map Recipe.tags).flatten

/-- The grouped tag counters before sorting: one `(tag, count)` pair per
distinct tag value. -/
def tagCounts (rs : List Recipe) : List (String × Nat) :=
  ((allTags rs).dedup).map (fun t => (t, (allTags rs).count t))

/-- `$sort: {count: -1}`: non-increasing by counter. -/
def tagDescOrder (a b : String × Nat) : Prop := b.2 ≤ a.2

instance : DecidableRel tagDescOrder :=
  fun a b => inferInstanceAs (Decidable (b.2 ≤ a.2))

instance : IsTotal (String × Nat) tagDescOrder :=
  ⟨fun a b => le_total b.2 a.2⟩

instance : IsTrans (String × Nat) tagDescOrder :=
  ⟨fun _ _ _ hab hbc => le_trans hbc hab⟩

/-- The third pipeline (lines 430–440): group the unwound tags, sort by
count descending, keep 10. -/
def topTags (rs : List Recipe) : List (String × Nat) :=
  ((tagCounts rs).insertionSort tagDescOrder).take 10

/-! ## Concrete fixtures used by the witnesses and counterexamples -/

/-- A stored document with every field populated. -/
def sampleRecipe : Recipe :=
  { title := "Tomato Soup", ingredients := ["tomato", "water"],
    instructions := "Simmer tomatoes in water for twenty minutes.",
    cookingTime := some 25, servings := some 2, difficulty := "easy",
    tags := ["soup", "vegan"], createdAt := 50, updatedAt := 100 }

/-- A stored document with neither `cookingTime` nor `servings`. -/
def bareRecipe : Recipe :=
  { title := "Plain Toast", ingredients := ["bread"],
    instructions := "Toast the bread until golden.",
    cookingTime := none, servings := none, difficulty := "easy",
    tags := [], createdAt := 10, updatedAt := 10 }

/-- An update body carrying only `{servings: 4}`. -/
def servingsOnlyBody : RecipeBody := { servings := some 4 }

/-- A create body whose ingredients list still has empty entries. -/
def emptyIngBody : RecipeBody :=
  { title := some "Salt Water", ingredients := some ["", "  ", "salt"],
    instructions := some "Dissolve the salt in the water." }

/-- A body that passes every validator. -/
def fullBody : RecipeBody :=
  { title := some " Green Salad ",
    ingredients := some [" lettuce ", "olive oil"],
    instructions := some "Chop the lettuce and dress it.",
    servings := some 4, tags := some [" Fresh ", "Quick"] }

/-- Search parameters with an out-of-enum difficulty and unnormalized
tags. -/
def rawEchoParams : SearchParams :=
  { difficulty := some "extreme", tags := some " Vegan " }

/-! ## Shared lemmas -/

theorem jsTrim_empty : jsTrim "" = "" := rfl

theorem validateRecipeBody_iff {b : RecipeBody} :
    validateRecipeBody b = true ↔
      validateTitle b.title = true ∧ validateIngredients b.ingredients = true ∧
      validateInstructions b.instructions = true ∧
      validatePosInt b.cookingTime = true ∧ validatePosInt b.servings = true ∧
      validateDifficulty b.difficulty = true := by
  simp [validateRecipeBody, Bool.and_eq_true, and_assoc]

theorem normIngredients_of_valid {l : List String}
    (h : ∀ s ∈ l, 0 < (jsTrim s).length) :
    normIngredients l = l.map jsTrim := by
  unfold normIngredients
  congr 1
  apply List.filter_eq_self.mpr
  intro s hs
  have h1 := h s hs
  have h2 : s ≠ "" := by
    intro he
    rw [he, jsTrim_empty] at h1
    exact absurd h1 (by decide)
  simp [h1, h2]

/-! ## C1 — update as a partial merge -/

/-- C1 counterexample: the claim says an update body containing only
`servings` succeeds, but the `validateRecipe` middleware also runs on
PUT and rejects a body with no title, ingredients or instructions, so
the operation returns the 400 validation response (`none`). -/
theorem update_servingsOnly_rejected :
    updateRecipe sampleRecipe servingsOnlyBody 200 = none ∧
    validateRecipeBody servingsOnlyBody = false ∧
    validateTitle servingsOnlyBody.title = false := by decide

/-- C1 (amended): for every update whose body passes validation (which
forces title, ingredients and instructions to be present), the update
succeeds, replaces exactly the fields present in the body, leaves each
omitted field at its stored value, and sets `updatedAt` to the current
time, hence to a value ≥ the previous one whenever the clock has not
gone backwards. -/
theorem update_partial_merge (r : Recipe) (b : RecipeBody) (now : Nat)
    (h : validateRecipeBody b = true) :
    ∃ u, updateRecipe r b now = some u ∧
      u.updatedAt = now ∧
      u.createdAt = r.createdAt ∧
      (b.cookingTime = none → u.cookingTime = r.cookingTime) ∧
      (b.servings = none → u.servings = r.servings) ∧
      (b.difficulty = none → u.difficulty = r.difficulty) ∧
      (b.tags = none → u.tags = r.tags) ∧
      (∀ n, b.servings = some n → u.servings = some n) ∧
      (∀ ts, b.tags = some ts → u.tags = normTags ts) ∧
      (r.updatedAt ≤ now → r.updatedAt ≤ u.updatedAt) := by
  have hu : updateRecipe r b now = some
      { title := (normalizeBody (sanitizeBody b)).title.getD r.title,
        ingredients :=
          (normalizeBody (sanitizeBody b)).ingredients.getD r.ingredients,
        instructions :=
          (normalizeBody (sanitizeBody b)).instructions.getD r.instructions,
        cookingTime := (normalizeBody (sanitizeBody b)).cookingTime.or r.cookingTime,
        servings := (normalizeBody (sanitizeBody b)).servings.or r.servings,
        difficulty := (normalizeBody (sanitizeBody b)).difficulty.getD r.difficulty,
        tags := (normalizeBody (sanitizeBody b)).tags.getD r.tags,
        createdAt := r.createdAt, updatedAt := now } := by
    simp [updateRecipe, h]
  refine ⟨_, hu, rfl, rfl, ?_, ?_, ?_, ?_, ?_, ?_, ?_⟩
  · intro hc; simp [normalizeBody, sanitizeBody, hc]
  · intro hc; simp [normalizeBody, sanitizeBody, hc]
  · intro hc; simp [normalizeBody, sanitizeBody, hc]
  · intro hc; simp [normalizeBody, sanitizeBody, hc]
  · intro n hn; simp [normalizeBody, sanitizeBody, hn]
  · intro ts hts; simp [normalizeBody, sanitizeBody, hts]
  · intro hle; exact hle

/-- C1 witness: the amended theorem applied to `sampleRecipe` and a
fully valid body at time 200. -/
theorem update_partial_merge_witness :
    validateRecipeBody fullBody = true ∧
    ∃ u, updateRecipe sampleRecipe fullBody 200 = some u ∧
      u.updatedAt = 200 ∧ u.createdAt = sampleRecipe.createdAt :=
  ⟨by decide,
    match update_partial_merge sampleRecipe fullBody 200 (by decide) with
    | ⟨u, h1, h2, h3, _⟩ => ⟨u, h1, h2, h3⟩⟩

/-! ## C2 — create with empty ingredient entries -/

/-- C2 counterexample: the claim says `ingredients: ["", "  ", "salt"]`
is accepted and stored as `["salt"]`, but the `validateRecipe` custom
check rejects any ingredient that is empty after trimming, before the
controller's clean-up runs, so the create operation returns the 400
validation response (`none`).  Title and instructions of this body are
valid, so the rejection is on the ingredients field. -/
theorem create_emptyIngredient_rejected :
    createRecipe emptyIngBody 100 = none ∧
    validateIngredients emptyIngBody.ingredients = false ∧
    validateTitle emptyIngBody.title = true ∧
    validateInstructions emptyIngBody.instructions = true := by decide

/-- C2 (amended): a create whose ingredients contain an empty or
whitespace-only entry is rejected by validation; for every create
request that passes validation the stored ingredients are exactly the
body's ingredients trimmed — the drop-empty filter of the clean-up
step removes nothing, because validation already excluded empty
entries. -/
theorem create_trims_ingredients (b : RecipeBody) (now : Nat)
    (h : validateRecipeBody b = true) :
    ∃ ing r, b.ingredients = some ing ∧ createRecipe b now = some r ∧
      normIngredients ing = ing.map jsTrim ∧
      r.ingredients = ing.map jsTrim := by
  obtain ⟨ht, hi, hins, -⟩ := validateRecipeBody_iff.mp h
  match hbi : b.ingredients with
  | none => rw [hbi] at hi; exact absurd hi (by decide)
  | some ing =>
    have hall : ∀ s ∈ ing, 0 < (jsTrim s).length := by
      rw [hbi] at hi
      simp only [validateIngredients, Bool.and_eq_true, List.all_eq_true,
        decide_eq_true_eq] at hi
      exact hi.2
    have hnorm := normIngredients_of_valid hall
    match hbt : b.title with
    | none => rw [hbt] at ht; exact absurd ht (by decide)
    | some t =>
      match hbs : b.instructions with
      | none => rw [hbs] at hins; exact absurd hins (by decide)
      | some ins =>
        have hc : createRecipe b now = some
            { title := jsTrim t, ingredients := normIngredients ing,
              instructions := jsTrim ins, cookingTime := b.cookingTime,
              servings := b.servings,
              difficulty := b.difficulty.getD "medium",
              tags := (b.tags.map normTags).getD [],
              createdAt := now, updatedAt := now } := by
          simp [createRecipe, h, normalizeBody, sanitizeBody, hbt, hbi, hbs]
        exact ⟨ing, _, rfl, hc, hnorm, hnorm⟩

/-- C2 witness: the amended theorem applied to a valid body with
untrimmed ingredients at time 100. -/
theorem create_trims_ingredients_witness :
    validateRecipeBody fullBody = true ∧
    ∃ ing r, fullBody.ingredients = some ing ∧
      createRecipe fullBody 100 = some r ∧
      normIngredients ing = ing.map jsTrim :=
  ⟨by decide,
    match create_trims_ingredients fullBody 100 (by decide) with
    | ⟨ing, r, h1, h2, h3, _⟩ => ⟨ing, r, h1, h2, h3⟩⟩

/-! ## C3 — the search response echo -/

/-- C3 counterexample: the claim says the echoed `searchQuery` reports
the effective, normalized parameters — a dropped filter is not
reported, tags come back trimmed and lower-cased.  On
`difficulty=extreme&tags=%20Vegan%20` the difficulty clause is dropped
from the query, yet the echo still reports `"extreme"`, and the echoed
tags are the raw string `" Vegan "` while the applied clause is
`["vegan"]`. -/
theorem search_echo_raw_cex :
    (searchFilterOf rawEchoParams).difficulty = none ∧
    (searchEchoOf rawEchoParams).difficulty = some "extreme" ∧
    (searchFilterOf rawEchoParams).tags = some ["vegan"] ∧
    (searchEchoOf rawEchoParams).tags = some " Vegan " := by decide

/-- C3 (amended): the search response echoes back the raw request
parameters, each collapsed to `null` when absent or empty; a parameter
whose clause was dropped (an out-of-enum difficulty) is still echoed
verbatim, and tags are echoed as the raw comma-separated string rather
than in normalized form. -/
theorem search_echo_raw (p : SearchParams) :
    (searchEchoOf p).textSearch = jsOrNull p.q ∧
    (searchEchoOf p).ingredient = jsOrNull p.ingredient ∧
    (searchEchoOf p).difficulty = jsOrNull p.difficulty ∧
    (searchEchoOf p).tags = jsOrNull p.tags ∧
    (searchEchoOf p).cookingTimeMax = jsOrNull p.cookingTimeMax ∧
    (searchEchoOf p).servingsMin = jsOrNull p.servingsMin ∧
    (∀ d, p.difficulty = some d → d ≠ "" →
      difficultyEnum.contains d = false →
      (searchFilterOf p).difficulty = none ∧
      (searchEchoOf p).difficulty = some d) := by
  refine ⟨rfl, rfl, rfl, rfl, rfl, rfl, ?_⟩
  intro d hd hne hout
  have hout2 : d ∉ difficultyEnum := by simpa using hout
  constructor
  · simp [searchFilterOf, jsOrNull, hd, hne, hout2]
  · simp [searchEchoOf, jsOrNull, hd, hne]

/-- C3 witness: the amended theorem applied to the raw-echo fixture
with difficulty `"extreme"`. -/
theorem search_echo_raw_witness :
    (searchFilterOf rawEchoParams).difficulty = none ∧
    (searchEchoOf rawEchoParams).difficulty = some "extreme" :=
  (search_echo_raw rawEchoParams).2.2.2.2.2.2 "extreme" rfl (by decide) (by decide)

/-! ## C4 — invalid difficulty: search versus list -/

/-- C4 counterexample: the claim quantifies over every difficulty
string outside the enum, but the empty string is falsy in JavaScript,
so `getAllRecipes` omits the clause instead of applying it verbatim:
with `difficulty=""` the list result keeps a record whose difficulty is
`"easy"`, although no stored record carries the difficulty `""`. -/
theorem list_difficulty_empty_cex :
    [sampleRecipe].filter
        (fun r => listMatches (listFilterOf { difficulty := some "" }) r)
      = [sampleRecipe] ∧
    sampleRecipe.difficulty ≠ "" ∧
    difficultyEnum.contains "" = false := by decide

/-- C4 (amended): for every non-empty difficulty string outside
{easy, medium, hard}, the search operation silently drops the
difficulty clause (its result set over any collection equals the one
with difficulty absent), while the list operation applies the string
verbatim as an equality clause, so its result set is empty whenever no
stored record carries that value. -/
theorem difficulty_filter_split (tm : String → Recipe → Bool)
    (rs : List Recipe) (d : String) (hne : d ≠ "")
    (hout : difficultyEnum.contains d = false) :
    rs.filter (fun r => searchMatches tm (searchFilterOf { difficulty := some d }) r)
      = rs.filter (fun r => searchMatches tm (searchFilterOf {}) r) ∧
    rs.filter (fun r => listMatches (listFilterOf { difficulty := some d }) r)
      = rs.filter (fun r => r.difficulty == d) ∧
    ((∀ r ∈ rs, r.difficulty ≠ d) →
      rs.filter (fun r => listMatches (listFilterOf { difficulty := some d }) r)
        = []) := by
  have hout2 : d ∉ difficultyEnum := by simpa using hout
  have hq : searchFilterOf { difficulty := some d } = searchFilterOf {} := by
    simp [searchFilterOf, jsOrNull, hne, hout2]
  have hl : ∀ r, listMatches (listFilterOf { difficulty := some d }) r
      = (r.difficulty == d) := by
    intro r
    simp [listMatches, listFilterOf, jsOrNull, hne]
  refine ⟨by rw [hq], ?_, ?_⟩
  · exact List.filter_congr (fun r _ => hl r)
  · intro hnone
    rw [List.filter_congr (fun r _ => hl r)]
    rw [List.filter_eq_nil_iff]
    intro r hr
    simpa using hnone r hr

/-- C4 witness: the amended theorem at difficulty `"extreme"` over the
one-record collection `[sampleRecipe]`. -/
theorem difficulty_filter_split_witness :
    [sampleRecipe].filter
        (fun r => listMatches (listFilterOf { difficulty := some "extreme" }) r)
      = [] :=
  (difficulty_filter_split (fun _ _ => true) [sampleRecipe] "extreme"
      (by decide) (by decide)).2.2 (by decide)

/-! ## C5 — page/limit coercion -/

/-- C5 counterexample: the claim says a negative page coerces to the
default 1, but `parseInt('-5') || 1` keeps `-5` (only `NaN` and `0` are
falsy), so the list window becomes `skip = -60`. -/
theorem list_negative_page_cex :
    listPageOf (some "-5") = -5 ∧
    listWindow (some "-5") none = (-60, 10) := by decide

/-- C5 (amended): in the list operation, an absent, non-numeric or zero
page/limit coerces to its default (1, 10) while any other parsed value
— negative ones included — is kept verbatim, and the window is
`skip = (page−1)·limit`, `take = limit` with no upper bound on limit;
in the search operation the destructuring defaults apply only when the
parameter is absent, and a non-numeric page makes the skip `NaN`. -/
theorem pagination_defaults :
    (listPageOf none = 1 ∧ listLimitOf none = 10) ∧
    (∀ s, (jsParseInt s = none ∨ jsParseInt s = some 0) →
      listPageOf (some s) = 1 ∧ listLimitOf (some s) = 10) ∧
    (∀ s n, jsParseInt s = some n → n ≠ 0 →
      listPageOf (some s) = n ∧ listLimitOf (some s) = n) ∧
    (∀ pq lq, listWindow pq lq =
      ((listPageOf pq - 1) * listLimitOf lq, listLimitOf lq)) ∧
    (searchPageNum none = some 1 ∧ searchLimitNum none = some 10) ∧
    (∀ s lq, jsToNum s = none → searchSkip (some s) lq = none) := by
  refine ⟨⟨rfl, rfl⟩, ?_, ?_, fun pq lq => rfl, ⟨rfl, rfl⟩, ?_⟩
  · intro s hs
    rcases hs with hs | hs <;> simp [listPageOf, listLimitOf, hs]
  · intro s n hs hn
    simp [listPageOf, listLimitOf, hs, hn]
  · intro s lq hs
    simp [searchSkip, searchPageNum, hs]

/-- C5 witness: the coercion cases of the amended theorem at the
concrete inputs `"abc"`, `"0"` and `"-5"`. -/
theorem pagination_defaults_witness :
    listPageOf (some "abc") = 1 ∧ listPageOf (some "0") = 1 ∧
    listPageOf (some "-5") = -5 ∧ searchSkip (some "abc") none = none :=
  ⟨(pagination_defaults.2.1 "abc" (Or.inl (by decide))).1,
   (pagination_defaults.2.1 "0" (Or.inr (by decide))).1,
   (pagination_defaults.2.2.1 "-5" (-5) (by decide) (by decide)).1,
   pagination_defaults.2.2.2.2.2 "abc" none (by rfl)⟩

/-! ## C6 — pagination flags at total 0 -/

/-- C6 counterexample: the claim says both flags are false whenever the
total is 0 regardless of the requested page, but `hasPrev = page > 1`
ignores the total (true on requested page 5 with an empty result), and
a negative requested page even makes `hasNext = page < 0` true. -/
theorem list_total_zero_cex :
    (listPaginationOf (some "5") none 0).hasPrev = true ∧
    (listPaginationOf (some "-5") none 0).hasNext = true ∧
    (listPaginationOf (some "5") none 0).totalPages = 0 := by decide

/-- C6 (amended): when the total is 0 the pagination block reports
`totalPages = 0`; `hasNext` is false provided the effective page is
≥ 1 (the default and every positive requested page), and `hasPrev`
equals `page > 1` irrespective of the total, hence is false exactly on
effective page 1; in general `hasNext = (page < totalPages)` and
`hasPrev = (page > 1)`. -/
theorem list_pagination_flags (pq lq : Option String)
    (h : 1 ≤ listPageOf pq) :
    ((listPaginationOf pq lq 0).totalPages = 0 ∧
     (listPaginationOf pq lq 0).hasNext = false) ∧
    (listPageOf pq = 1 → (listPaginationOf pq lq 0).hasPrev = false) ∧
    (∀ total, (listPaginationOf pq lq total).hasNext
        = decide ((listPaginationOf pq lq total).currentPage
            < (listPaginationOf pq lq total).totalPages) ∧
      (listPaginationOf pq lq total).hasPrev
        = decide (1 < (listPaginationOf pq lq total).currentPage)) := by
  have htp : jsCeilDiv 0 (listLimitOf lq) = 0 := by
    simp [jsCeilDiv]
  refine ⟨⟨htp, ?_⟩, ?_, fun total => ⟨rfl, rfl⟩⟩
  · simp only [listPaginationOf, htp]
    simp only [decide_eq_false_iff_not, not_lt]
    omega
  · intro h1
    simp [listPaginationOf, h1]

/-- C6 witness: the amended theorem at requested page `"5"` (for the
totalPages clause) and at the default page (for both flag clauses). -/
theorem list_pagination_flags_witness :
    (listPaginationOf none none 0).totalPages = 0 ∧
    (listPaginationOf none none 0).hasNext = false ∧
    (listPaginationOf none none 0).hasPrev = false ∧
    (listPaginationOf (some "5") none 0).totalPages = 0 :=
  ⟨(list_pagination_flags none none (by decide)).1.1,
   (list_pagination_flags none none (by decide)).1.2,
   (list_pagination_flags none none (by decide)).2.1 (by decide),
   (list_pagination_flags (some "5") none (by decide)).1.1⟩

/-! ## C7 — title length rule -/

/-- C7 counterexample: the claim says a title of trimmed length 1 or 2
passes the title validation, but `isLength({min:3})` rejects `"ab"`. -/
theorem title_length_cex :
    validateTitle (some "ab") = false ∧ (jsTrim "ab").length = 2 := by decide

/-- C7 (amended): a create or update request is accepted with respect
to the title field iff the trimmed title has length between 3 and 100
characters inclusive. -/
theorem title_rule (s : String) :
    validateTitle (some s) = true ↔
      3 ≤ (jsTrim s).length ∧ (jsTrim s).length ≤ 100 := by
  simp only [validateTitle, Bool.and_eq_true, Bool.not_eq_eq_eq_not,
    Bool.not_true, beq_eq_false_iff_ne, ne_eq, decide_eq_true_eq]
  constructor
  · rintro ⟨-, h2, h3⟩
    exact ⟨h2, h3⟩
  · rintro ⟨h2, h3⟩
    refine ⟨?_, h2, h3⟩
    intro he
    rw [he] at h2
    exact absurd h2 (by decide)

/-- C7 witness: the amended rule certifies the three-character title
`"Pie"`. -/
theorem title_rule_witness : validateTitle (some "Pie") = true :=
  (title_rule "Pie").mpr (by decide)

/-! ## C8 — statistics on an empty collection -/

/-- C8: on the empty collection the overview aggregation yields no
group document, so the handler substitutes the literal fallback
`{totalRecipes: 0, avgCookingTime: 0, avgServings: 0}` (zeroes, not
null), the difficulty breakdown reduces to the empty object and the
top-tags list is empty. -/
theorem stats_empty_collection :
    statsOverview [] =
      { totalRecipes := 0, avgCookingTime := some 0, avgServings := some 0 } ∧
    difficultyBreakdown [] = [] ∧ topTags [] = [] :=
  ⟨rfl, rfl, rfl⟩

/-! ## C9 — shape of the top-tags list -/

/-- C9: over every collection, each entry of the top-tags list carries
the number of occurrences of its tag across the concatenation of all
tag lists (each tag instance counted individually), the list has at
most 10 entries, and it is sorted non-increasing by count. -/
theorem top_tags_spec (rs : List Recipe) :
    (topTags rs).length ≤ 10 ∧
    List.Sorted tagDescOrder (topTags rs) ∧
    (∀ e ∈ topTags rs, e.2 = (allTags rs).count e.1) := by
  refine ⟨List.length_take_le 10 _, ?_, ?_⟩
  · exact List.Pairwise.sublist (List.take_sublist 10 _)
      (List.sorted_insertionSort tagDescOrder (tagCounts rs))
  · intro e he
    have h1 : e ∈ (tagCounts rs).insertionSort tagDescOrder :=
      List.mem_of_mem_take he
    have h2 : e ∈ tagCounts rs :=
      (List.perm_insertionSort tagDescOrder (tagCounts rs)).mem_iff.mp h1
    unfold tagCounts at h2
    rcases List.mem_map.mp h2 with ⟨t, -, rfl⟩
    rfl

/-- C9 witness: the specification applied to the one-record collection
`[sampleRecipe]`, whose tag `"soup"` occurs once. -/
theorem top_tags_spec_witness :
    (topTags [sampleRecipe]).length ≤ 10 ∧
    ("soup", 1).2 = (allTags [sampleRecipe]).count ("soup", 1).1 :=
  ⟨(top_tags_spec [sampleRecipe]).1,
   (top_tags_spec [sampleRecipe]).2.2 ("soup", 1) (by decide)⟩

/-! ## C10 — averages over a collection with the field unset -/

/-- C10: on a non-empty collection in which no record has `cookingTime`
set, `$avg` sees no numeric value and yields null (and `$round` of
null stays null), so the overview reports `avgCookingTime = null`;
likewise for `avgServings`.  The zero fallback is taken only on the
empty collection, as the `totalRecipes` clause shows. -/
theorem stats_avg_null_when_unset (rs : List Recipe) (hne : rs ≠ []) :
    ((∀ r ∈ rs, r.cookingTime = none) →
      (statsOverview rs).avgCookingTime = none) ∧
    ((∀ r ∈ rs, r.servings = none) →
      (statsOverview rs).avgServings = none) ∧
    (statsOverview rs).totalRecipes = rs.length := by
  have hemp : rs.isEmpty = false := by
    simpa [List.isEmpty_iff] using hne
  refine ⟨?_, ?_, ?_⟩
  · intro hall
    have hnil : rs.filterMap Recipe.cookingTime = [] :=
      List.filterMap_eq_nil_iff.mpr hall
    simp [statsOverview, overviewStage, hemp, hnil, mongoAvg]
  · intro hall
    have hnil : rs.filterMap Recipe.servings = [] :=
      List.filterMap_eq_nil_iff.mpr hall
    simp [statsOverview, overviewStage, hemp, hnil, mongoAvg]
  · simp [statsOverview, overviewStage, hemp]

/-- C10 witness: the theorem applied to `[bareRecipe]`, a one-record
collection with neither optional field set. -/
theorem stats_avg_null_when_unset_witness :
    (statsOverview [bareRecipe]).avgCookingTime = none ∧
    (statsOverview [bareRecipe]).avgServings = none ∧
    (statsOverview [bareRecipe]).totalRecipes = 1 :=
  ⟨(stats_avg_null_when_unset [bareRecipe] (by decide)).1 (by decide),
   (stats_avg_null_when_unset [bareRecipe] (by decide)).2.1 (by decide),
   (stats_avg_null_when_unset [bareRecipe] (by decide)).2.2⟩
